import Mathlib

/-!
Verification of the fermi estimation repository core
(`src/utils.py`, `src/structs.py`, `src/eval/eval.py`).

The Python code is shallowly embedded: pure functions become Lean
functions, Python exceptions become `Except`/`Option` error values, and
the two external effects — the completion-service reply inside
`convert_units` and Python builtins (`eval`, `json.loads`, `float`) —
are passed in explicitly as oracle parameters describing the outcome of
the corresponding call, so every definition stays executable.
Machine floats are modelled as rationals: all the properties at issue
are about control flow and order comparisons, not rounding.
-/

namespace Fermi

/-- A value inside a document produced by Python `json.loads`.
JSON numbers (ints and floats alike) are modelled as rationals. -/
inductive JVal where
  | num (q : ℚ)
  | str (s : String)
  | jbool (b : Bool)
  | null
  | arr (elems : List JVal)
  | obj (fields : List (String × JVal))

/-- The `Estimate` dataclass from `src/structs.py`.  Python does not
enforce the `unit : str` annotation at runtime (a dataclass accepts any
value), so `unit`, `name` and `reasoning_trace` hold arbitrary JSON
values here; `lower`, `value`, `upper` are the numbers the parser (or
the CSV loader) puts there. -/
structure Estimate where
  lower : ℚ
  value : ℚ
  upper : ℚ
  unit : JVal
  name : Option JVal := none
  reasoning_trace : Option JVal := none

/- ### Python string builtins used by `parse_estimate` and
`calculate_score`, modelled over `List Char`. -/

/-- The characters `{` and `}` (written by code point to keep string
literals brace-free). -/
def lbrace : Char := Char.ofNat 123

def rbrace : Char := Char.ofNat 125

def lbraceS : String := String.mk [lbrace]

def rbraceS : String := String.mk [rbrace]

/-- Python `text.find(c)` for a single character: first index, `-1` if absent. -/
def pyFindChar (s : String) (c : Char) : Int :=
  match s.toList.findIdx? (fun d => d = c) with
  | some i => (i : Int)
  | none => -1

/-- Python `text.rfind(c)` for a single character: last index, `-1` if absent. -/
def pyRFindChar (s : String) (c : Char) : Int :=
  match s.toList.reverse.findIdx? (fun d => d = c) with
  | some i => ((s.toList.length - 1 - i : ℕ) : Int)
  | none => -1

/-- Clamp a (possibly negative) Python slice index into `[0, n]`. -/
def pySliceIndex (n : ℕ) (i : Int) : ℕ :=
  if i < 0 then ((n : Int) + i).toNat else min i.toNat n

/-- Python `s[i:j]` (step 1, negative indices counted from the end). -/
def pySlice (s : String) (i j : Int) : String :=
  let a := pySliceIndex s.toList.length i
  let b := pySliceIndex s.toList.length j
  String.mk (((s.toList).drop a).take (b - a))

/-- Python `s[i:]`. -/
def pySliceFrom (s : String) (i : Int) : String :=
  pySlice s i (s.toList.length : Int)

/-- Python `s.startswith(p)`. -/
def pyStartsWith (s p : String) : Bool :=
  p.toList.isPrefixOf s.toList

/-- Python `s.endswith(p)`. -/
def pyEndsWith (s p : String) : Bool :=
  p.toList.isSuffixOf s.toList

/-- Python `s.lower()` (ASCII case mapping suffices here). -/
def pyLower (s : String) : String :=
  String.mk (s.toList.map Char.toLower)

/-- The ASCII whitespace stripped by Python `str.strip()`:
space, tab, newline, carriage return, form feed, vertical tab. -/
def pySpace (c : Char) : Bool :=
  c = Char.ofNat 32 || c = Char.ofNat 9 || c = Char.ofNat 10 ||
    c = Char.ofNat 13 || c = Char.ofNat 12 || c = Char.ofNat 11

/-- Python `s.strip()`. -/
def pyStrip (s : String) : String :=
  String.mk (((s.toList.dropWhile pySpace).reverse.dropWhile pySpace).reverse)

/- ### `parse_estimate` (src/utils.py) -/

/-- How `parse_estimate` can fail.  The first three constructors are the
`ValueError`s the function raises itself (what the spec calls
`ParseError`); the last two are `TypeError`s escaping from the builtins
it calls (`float` on a non-string non-number; `Estimate(**data)` on an
unexpected keyword). -/
inductive ParseFailure where
  | notJson
  | missingFields (extra : List String)
  | badNumber (field : String)
  | floatTypeError (pyType : String)
  | unexpectedKeyword (key : String)
deriving DecidableEq

/-- Does this failure correspond to a `ValueError` deliberately raised by
`parse_estimate` (the spec's `ParseError`), as opposed to an uncaught
`TypeError` from a builtin or the record constructor? -/
def ParseFailure.isParseError : ParseFailure → Bool
  | .notJson => true
  | .missingFields _ => true
  | .badNumber _ => true
  | .floatTypeError _ => false
  | .unexpectedKeyword _ => false

/-- The keys `parse_estimate` requires in the document. -/
def requiredKeys : List String := ["lower", "value", "upper", "unit"]

/-- The keyword parameters accepted by the `Estimate` dataclass
constructor. -/
def estimateParams : List String :=
  ["lower", "value", "upper", "unit", "name", "reasoning_trace"]

/-- `data.keys()` of a JSON document (modelled as an association list in
insertion order, as Python dicts are). -/
def docKeys (data : List (String × JVal)) : List String :=
  data.map Prod.fst

/-- The numeric-field coercion step of `parse_estimate`:
`if not isinstance(data[field], (int, float)): data[field] = float(data[field])`,
with the `float` call guarded by `except ValueError` only.
`pf` is the oracle for Python `float : str → float` (`none` = `ValueError`).
A Python `bool` is an `int` instance, so it passes the `isinstance` check.
`float(None)` / `float(list)` / `float(dict)` raise `TypeError`, which the
`except ValueError` clause does not catch. -/
def coerceField (pf : String → Option ℚ) (field : String) :
    JVal → Except ParseFailure ℚ
  | .num q => .ok q
  | .jbool b => .ok (if b then 1 else 0)
  | .str s =>
    match pf s with
    | some q => .ok q
    | none => .error (.badNumber field)
  | .null => .error (.floatTypeError "NoneType")
  | .arr _ => .error (.floatTypeError "list")
  | .obj _ => .error (.floatTypeError "dict")

/-- The post-`json.loads` part of `parse_estimate`.
`key not in data` is exactly `data.lookup key = none`; the
missing-field branch reports `set(data.keys()) - {four required keys}`
(here the list of keys outside `requiredKeys`, in document order, since
CPython set iteration order is unspecified).  The three numeric fields
are coerced in the order lower, value, upper (iteration order over the
Python set literal, also unspecified; only one field fails in any input
considered here).  `Estimate(**data)` succeeds iff every key is an
accepted keyword parameter, else raises
`TypeError: unexpected keyword argument` naming the first extra key. -/
def parseFields (pf : String → Option ℚ) (data : List (String × JVal)) :
    Except ParseFailure Estimate :=
  match data.lookup "lower", data.lookup "value",
      data.lookup "upper", data.lookup "unit" with
  | some lv, some vv, some uv, some uu =>
    match coerceField pf "lower" lv with
    | .error e => .error e
    | .ok ql =>
      match coerceField pf "value" vv with
      | .error e => .error e
      | .ok qv =>
        match coerceField pf "upper" uv with
        | .error e => .error e
        | .ok qu =>
          match (docKeys data).filter (fun k => !(estimateParams.contains k)) with
          | [] =>
            .ok { lower := ql, value := qv, upper := qu, unit := uu,
                  name := data.lookup "name",
                  reasoning_trace := data.lookup "reasoning_trace" }
          | k :: _ => .error (.unexpectedKeyword k)
  | _, _, _, _ =>
    .error (.missingFields
      ((docKeys data).filter (fun k => !(requiredKeys.contains k))))

/-- The JSON-span extraction of `parse_estimate`:
`text[text.find(lb) : text.rfind(rb) + 1]`. -/
def extractJson (text : String) : String :=
  pySlice text (pyFindChar text lbrace) (pyRFindChar text rbrace + 1)

/-- `parse_estimate(text)` from `src/utils.py`.
`jl` is the oracle for Python `json.loads` restricted to top-level
objects (`none` = `json.JSONDecodeError`); `pf` is the oracle for
Python `float` on strings. -/
def parse_estimate (jl : String → Option (List (String × JVal)))
    (pf : String → Option ℚ) (text : String) : Except ParseFailure Estimate :=
  let json_text := extractJson text
  if !(pyStartsWith json_text lbraceS) || !(pyEndsWith json_text rbraceS) then
    .error .notJson
  else
    match jl json_text with
    | none => .error .notJson
    | some data => parseFields pf data

/- ### `convert_units` (src/utils.py) and `calculate_score`
(src/eval/eval.py) -/

/-- The outcome of the Python `eval(response)` call inside
`convert_units`, supplied as an oracle: the expression evaluated to a
number, evaluated to a string, or raised an exception whose `str(e)` is
`msg`.  (Other result types are never produced by the numeric
conversion expressions at issue and are not modelled.) -/
inductive EvalOutcome where
  | num (q : ℚ)
  | str (s : String)
  | err (msg : String)

/-- The `str | float` return type of `convert_units`. -/
inductive ConvResult where
  | s (v : String)
  | f (v : ℚ)

/-- What the `eval` branch of `convert_units` returns:
`return eval(response)` on success, `return "invalid: " + str(e)` on
any exception. -/
def evalOutcomeResult : EvalOutcome → ConvResult
  | .num q => .f q
  | .str s => .s s
  | .err m => .s ("invalid: " ++ m)

/-- `convert_units(unit1, unit2)` from `src/utils.py`, as a function of
the completion-service response (the units only enter the prompt).
Note: the comparisons are exact — `response == "same"` returns the
number `1`, `response == "invalid"` returns the string `"invalid"`, and
anything else goes to `eval`; no trimming or case folding happens here. -/
def convert_units (ev : EvalOutcome) (response : String) : ConvResult :=
  if response = "same" then .f 1
  else if response = "invalid" then .s "invalid"
  else evalOutcomeResult ev

/-- Python `str()` of a unit value, as interpolated into the diagnostic
f-string.  Only the `.str` case (the one every theorem below uses) is
exercised; the numeric renderings are nominal. -/
def pyStrOfJVal : JVal → String
  | .str s => s
  | .num q => toString q
  | .jbool b => if b then "True" else "False"
  | .null => "None"
  | .arr _ => "list"
  | .obj _ => "dict"

/-- The diagnostic built for an `invalid`-classified conversion:
`f"Invalid units: {estimated.unit} and {correct.unit}. Conversion model
returned: {conversion_factor[7:]}"`. -/
def conversionErrorLog (estimated correct : Estimate) (cf : String) : String :=
  "Invalid units: " ++ pyStrOfJVal estimated.unit ++ " and " ++
    pyStrOfJVal correct.unit ++ ". Conversion model returned: " ++
    pySliceFrom cf 7

/-- `calculate_score(estimated, correct)` from `src/eval/eval.py`.
`estimated` is either the traceback string recorded when the estimator
raised (`.inl`) or an `Estimate` (`.inr`); `ev`/`response` parameterise
the completion call and `eval` inside `convert_units`.  The result is
`none` exactly when the function raises
`ValueError("Unexpected response from conversion model: ...")`, which
propagates to the caller (the call site in `process_estimate` is outside
its `try` block). -/
def calculate_score (ev : EvalOutcome) (response : String)
    (estimated : String ⊕ Estimate) (correct : Estimate) :
    Option (ℚ × String) :=
  match estimated with
  | .inl s => some (0, s)
  | .inr est =>
    match convert_units ev response with
    | .s cf =>
      if pyStrip (pyLower cf) = "same" then some (1, "")
      else if pyStartsWith (pyStrip (pyLower cf)) "invalid" then
        some (0, conversionErrorLog est correct cf)
      else none
    | .f f =>
      if correct.lower < est.value * f ∧ est.value * f < correct.upper then
        some (1, "")
      else some (0, "")

/- ### the aggregate score of `generate_eval_result` (src/eval/eval.py) -/

/-- The aggregation tail of `generate_eval_result`, as a function of the
per-question scores: `queries, scores = zip(*results)` raises
`ValueError` when `results` is empty (unpacking `zip()` into two names),
before the guarded average `sum(scores) / len(estimates) if estimates
else 0` is reached; otherwise the average is returned. -/
def generate_eval_result_score (scores : List ℚ) : Except String ℚ :=
  match scores with
  | [] => .error "not enough values to unpack (expected 2, got 0)"
  | _ :: _ => .ok (scores.sum / (scores.length : ℚ))

/-- Does this JSON value pass the Python
`isinstance(x, (int, float))` test?  (`bool` is an `int` subclass.) -/
def isPyNumeric : JVal → Bool
  | .num _ => true
  | .jbool _ => true
  | _ => false

/-- The failure the numeric coercion step produces for a non-numeric
field value: a string that will not parse gives the deliberate
`ValueError` naming the field, while `None`, a list or a dict make
`float()` raise a `TypeError` (naming only the Python type) that the
`except ValueError` clause does not catch.  (The `.num`/`.jbool` cases
never fail and are given a nominal value.) -/
def badCoerce (field : String) : JVal → ParseFailure
  | .str _ => .badNumber field
  | .null => .floatTypeError "NoneType"
  | .arr _ => .floatTypeError "list"
  | .obj _ => .floatTypeError "dict"
  | .num _ => .badNumber field
  | .jbool _ => .badNumber field

/-! ### Concrete documents and texts used by witnesses and
counterexamples -/

/-- A well-formed response document. -/
def docOk : List (String × JVal) :=
  [("lower", .num 1), ("value", .num 2), ("upper", .num 3), ("unit", .str "kg")]

def textOk : String :=
  lbraceS ++ "\"lower\": 1, \"value\": 2, \"upper\": 3, \"unit\": \"kg\"" ++ rbraceS

/-- Bounds out of order: lower 5, value 2, upper 3. -/
def docDisorder : List (String × JVal) :=
  [("lower", .num 5), ("value", .num 2), ("upper", .num 3), ("unit", .str "kg")]

def textDisorder : String :=
  lbraceS ++ "\"lower\": 5, \"value\": 2, \"upper\": 3, \"unit\": \"kg\"" ++ rbraceS

/-- `unit` missing, extra key `confidence` present. -/
def docNoUnit : List (String × JVal) :=
  [("lower", .num 1), ("value", .num 2), ("upper", .num 3), ("confidence", .num 1)]

def textNoUnit : String :=
  lbraceS ++ "\"lower\": 1, \"value\": 2, \"upper\": 3, \"confidence\": 1" ++ rbraceS

/-- `value` is JSON `null`. -/
def docNullValue : List (String × JVal) :=
  [("lower", .num 1), ("value", .null), ("upper", .num 3), ("unit", .str "kg")]

def textNullValue : String :=
  lbraceS ++ "\"lower\": 1, \"value\": null, \"upper\": 3, \"unit\": \"kg\"" ++ rbraceS

/-- All four required keys plus the extra key `confidence`. -/
def docExtraKey : List (String × JVal) :=
  [("lower", .num 1), ("value", .num 2), ("upper", .num 3), ("unit", .str "kg"),
    ("confidence", .num 1)]

def textExtraKey : String :=
  lbraceS ++ "\"lower\": 1, \"value\": 2, \"upper\": 3, \"unit\": \"kg\", " ++
    "\"confidence\": 1" ++ rbraceS

/-- All four required keys, a non-parsable string as `value`, plus the
extra key `confidence`. -/
def docExtraKeyBadValue : List (String × JVal) :=
  [("lower", .num 1), ("value", .str "abc"), ("upper", .num 3),
    ("unit", .str "kg"), ("confidence", .num 1)]

def textExtraKeyBadValue : String :=
  lbraceS ++ "\"lower\": 1, \"value\": \"abc\", \"upper\": 3, \"unit\": \"kg\", " ++
    "\"confidence\": 1" ++ rbraceS

/-- `json.loads` on exactly the sample texts above. -/
def sampleLoads : String → Option (List (String × JVal)) := fun s =>
  if s = textOk then some docOk
  else if s = textDisorder then some docDisorder
  else if s = textNoUnit then some docNoUnit
  else if s = textNullValue then some docNullValue
  else if s = textExtraKey then some docExtraKey
  else if s = textExtraKeyBadValue then some docExtraKeyBadValue
  else none

/-- Python `float` on the strings appearing in the sample documents:
the only string a numeric field holds there is `"abc"`, which `float`
rejects with `ValueError`. -/
def sampleFloat : String → Option ℚ := fun _ => none

/-! ## Theorems -/

/-! ### Helper lemmas -/

theorem lookup_none_of_not_mem {data : List (String × JVal)} {k : String}
    (h : k ∉ docKeys data) : data.lookup k = none := by
  rw [List.lookup_eq_none_iff]
  intro p hp
  simp only [bne_iff_ne, ne_eq]
  intro hk
  subst hk
  exact h (List.mem_map_of_mem Prod.fst hp)

theorem mem_docKeys_of_lookup {data : List (String × JVal)} {k : String} {v : JVal}
    (h : data.lookup k = some v) : k ∈ docKeys data := by
  by_contra hk
  rw [lookup_none_of_not_mem hk] at h
  cases h

theorem filter_keys_nil {l params : List String}
    (h : ∀ k ∈ l, k ∈ params) : l.filter (fun k => !(params.contains k)) = [] := by
  rw [List.filter_eq_nil_iff]
  intro a ha
  simp [List.contains, h a ha]

theorem mem_required_params {k : String} (h : k ∈ requiredKeys) :
    k ∈ estimateParams := by
  simp only [requiredKeys, List.mem_cons, List.not_mem_nil, or_false] at h
  rcases h with h | h | h | h <;> subst h <;> decide

/-- When the extraction and `json.loads` steps go through,
`parse_estimate` is `parseFields` on the loaded document. -/
theorem parse_estimate_eq_parseFields {jl : String → Option (List (String × JVal))}
    {pf : String → Option ℚ} {text : String} {data : List (String × JVal)}
    (hstart : pyStartsWith (extractJson text) lbraceS = true)
    (hend : pyEndsWith (extractJson text) rbraceS = true)
    (hload : jl (extractJson text) = some data) :
    parse_estimate jl pf text = parseFields pf data := by
  simp only [parse_estimate, hstart, hend, hload, Bool.not_true, Bool.or_self,
    Bool.false_eq_true, if_false]

/-- If any of the four required keys fails to look up, `parseFields`
reports the keys outside the required set. -/
theorem parseFields_missing (pf : String → Option ℚ) (data : List (String × JVal))
    (h : data.lookup "lower" = none ∨ data.lookup "value" = none ∨
      data.lookup "upper" = none ∨ data.lookup "unit" = none) :
    parseFields pf data =
      .error (.missingFields
        ((docKeys data).filter (fun k => !(requiredKeys.contains k)))) := by
  unfold parseFields
  rcases hl : data.lookup "lower" with _ | lv <;>
    rcases hv : data.lookup "value" with _ | vv <;>
      rcases hu : data.lookup "upper" with _ | uv <;>
        rcases hn : data.lookup "unit" with _ | uu <;>
          simp_all

/-- When all four keys look up and the three numeric coercions succeed,
`parseFields` reaches the record construction. -/
theorem parseFields_ok {pf : String → Option ℚ} {data : List (String × JVal)}
    {lv vv uv uu : JVal} {ql qv qu : ℚ}
    (hl : data.lookup "lower" = some lv) (hcl : coerceField pf "lower" lv = .ok ql)
    (hv : data.lookup "value" = some vv) (hcv : coerceField pf "value" vv = .ok qv)
    (hu : data.lookup "upper" = some uv) (hcu : coerceField pf "upper" uv = .ok qu)
    (hn : data.lookup "unit" = some uu) :
    parseFields pf data =
      match (docKeys data).filter (fun k => !(estimateParams.contains k)) with
      | [] => .ok { lower := ql, value := qv, upper := qu, unit := uu,
                    name := data.lookup "name",
                    reasoning_trace := data.lookup "reasoning_trace" }
      | k :: _ => .error (.unexpectedKeyword k) := by
  unfold parseFields
  simp only [hl, hv, hu, hn, hcl, hcv, hcu]

/-- A non-numeric field value that is not a parsable string makes the
coercion step fail with `badCoerce`. -/
theorem coerceField_bad {pf : String → Option ℚ} {fld : String} {v : JVal}
    (hbad : isPyNumeric v = false)
    (hstr : ∀ s, v = .str s → pf s = none) :
    coerceField pf fld v = .error (badCoerce fld v) := by
  cases v with
  | num q => simp [isPyNumeric] at hbad
  | jbool b => simp [isPyNumeric] at hbad
  | str s => simp [coerceField, badCoerce, hstr s rfl]
  | null => rfl
  | arr l => rfl
  | obj l => rfl

theorem coerceField_num {pf : String → Option ℚ} {fld : String} {q : ℚ} :
    coerceField pf fld (.num q) = .ok q := rfl

/-- Claim C1 (amended): when the completion service responds exactly
`"same"`, `convert_units` returns the numeric factor `1` and
`calculate_score` applies the range check, returning `(1, "")` iff
`correct.lower < candidate.value < correct.upper`; the unconditional
`(1, "")` branch fires only when `convert_units` returns a *string*
equal to `"same"` after lowercasing and stripping, which requires the
`eval` branch to have produced such a string. -/
theorem score_same_response_applies_range_check :
    (∀ (ev : EvalOutcome) (cand correct : Estimate),
      calculate_score ev "same" (.inr cand) correct =
        some (if correct.lower < cand.value ∧ cand.value < correct.upper
          then (1 : ℚ) else 0, "")) ∧
    (∀ (s response : String) (cand correct : Estimate),
      response ≠ "same" → response ≠ "invalid" →
      pyStrip (pyLower s) = "same" →
      calculate_score (.str s) response (.inr cand) correct = some (1, "")) := by
  constructor
  · intro ev cand correct
    have hred : calculate_score ev "same" (.inr cand) correct =
        if correct.lower < cand.value * 1 ∧ cand.value * 1 < correct.upper
          then some ((1 : ℚ), "") else some (0, "") := rfl
    rw [hred, mul_one]
    by_cases h : correct.lower < cand.value ∧ cand.value < correct.upper
    · rw [if_pos h, if_pos h]
    · rw [if_neg h, if_neg h]
  · intro s response cand correct h1 h2 h3
    simp [calculate_score, convert_units, evalOutcomeResult, h1, h2, h3]

/-- Witness for C1: a `"same"` response with the candidate value outside
the reference bounds scores 0, and a string `" SAME "` produced by the
`eval` branch scores 1 unconditionally. -/
theorem score_same_response_applies_range_check_witness :
    calculate_score (.err "boom") "same" (.inr ⟨20, 25, 30, .str "kg", none, none⟩)
        ⟨10, 14, 20, .str "kg", none, none⟩ = some (0, "") ∧
    calculate_score (.str " SAME ") "2 * 3" (.inr ⟨4, 5, 6, .str "kg", none, none⟩)
        ⟨10, 14, 20, .str "kg", none, none⟩ = some (1, "") := by
  constructor
  · have h := score_same_response_applies_range_check.1 (.err "boom")
      ⟨20, 25, 30, .str "kg", none, none⟩ ⟨10, 14, 20, .str "kg", none, none⟩
    rw [h]
    norm_num
  · exact score_same_response_applies_range_check.2 " SAME " "2 * 3" _ _
      (by decide) (by decide) (by decide)

/-- Claim C1 counterexample: the completion service responds `"same"`,
yet the score is `(0, "")`, not the `(1, "")` the claim requires — the
candidate value 5 lies outside the reference bounds (10, 20), and the
range check (which the claim says is skipped) rejects it. -/
theorem score_same_response_not_unconditional_pass :
    calculate_score (.err "boom") "same" (.inr ⟨4, 5, 6, .str "kg", none, none⟩)
        ⟨10, 14, 20, .str "kg", none, none⟩ = some (0, "") := by
  norm_num [calculate_score, convert_units]

/-- Claim C2 (amended): `convert_units` itself performs no
normalization: it compares the raw response for exact equality with
`"same"` (returning the factor 1) and `"invalid"` (returning the string
`"invalid"`), and hands any other response to `eval`.  The
trim/lowercase normalization is applied by `calculate_score` to the
*string* `convert_units` returns: equal to `"same"` after
lowercase/strip scores 1, starting with `"invalid"` after
lowercase/strip scores 0 with a diagnostic quoting the raw string from
offset 7. -/
theorem convert_units_exact_match_no_normalization :
    (∀ ev : EvalOutcome, convert_units ev "same" = .f 1) ∧
    (∀ ev : EvalOutcome, convert_units ev "invalid" = .s "invalid") ∧
    (∀ (ev : EvalOutcome) (response : String),
      response ≠ "same" → response ≠ "invalid" →
      convert_units ev response = evalOutcomeResult ev) ∧
    (∀ (cf response : String) (cand correct : Estimate),
      response ≠ "same" → response ≠ "invalid" →
      pyStrip (pyLower cf) = "same" →
      calculate_score (.str cf) response (.inr cand) correct = some (1, "")) ∧
    (∀ (cf response : String) (cand correct : Estimate),
      response ≠ "same" → response ≠ "invalid" →
      pyStrip (pyLower cf) ≠ "same" →
      pyStartsWith (pyStrip (pyLower cf)) "invalid" = true →
      calculate_score (.str cf) response (.inr cand) correct =
        some (0, conversionErrorLog cand correct cf)) := by
  refine ⟨fun ev => rfl, fun ev => rfl, ?_, ?_, ?_⟩
  · intro ev response h1 h2
    simp [convert_units, h1, h2]
  · intro cf response cand correct h1 h2 h3
    simp [calculate_score, convert_units, evalOutcomeResult, h1, h2, h3]
  · intro cf response cand correct h1 h2 h3 h4
    simp [calculate_score, convert_units, evalOutcomeResult, h1, h2, h3, h4]

/-- Witness for C2: concrete instances of every conjunct. -/
theorem convert_units_exact_match_no_normalization_witness :
    convert_units (.err "boom") "same" = .f 1 ∧
    convert_units (.num 5) "invalid" = .s "invalid" ∧
    convert_units (.num 5) "5" = evalOutcomeResult (.num 5) ∧
    calculate_score (.str "Same") "x" (.inr ⟨4, 5, 6, .str "kg", none, none⟩)
        ⟨10, 14, 20, .str "kg", none, none⟩ = some (1, "") ∧
    calculate_score (.str "INVALID units") "x" (.inr ⟨4, 5, 6, .str "kg", none, none⟩)
        ⟨10, 14, 20, .str "kg", none, none⟩ =
      some (0, conversionErrorLog ⟨4, 5, 6, .str "kg", none, none⟩
        ⟨10, 14, 20, .str "kg", none, none⟩ "INVALID units") := by
  refine ⟨convert_units_exact_match_no_normalization.1 _,
    convert_units_exact_match_no_normalization.2.1 _,
    convert_units_exact_match_no_normalization.2.2.1 _ "5" (by decide) (by decide),
    convert_units_exact_match_no_normalization.2.2.2.1 "Same" "x" _ _
      (by decide) (by decide) (by decide),
    convert_units_exact_match_no_normalization.2.2.2.2 "INVALID units" "x" _ _
      (by decide) (by decide) (by decide) (by decide)⟩

/-- Claim C2 counterexample: the response `" Same "` is not classified
Identical.  It fails both exact comparisons, so it is handed to Python
`eval`, which raises a `NameError` (its message is abbreviated to
`"NameError"` here); `convert_units` returns `"invalid: NameError"` and
the scorer treats the units as incompatible, scoring 0 rather than 1. -/
theorem convert_units_padded_same_not_identical :
    convert_units (.err "NameError") " Same " = .s "invalid: NameError" ∧
    calculate_score (.err "NameError") " Same "
        (.inr ⟨4, 5, 6, .str "kg", none, none⟩)
        ⟨10, 14, 20, .str "kg", none, none⟩ =
      some (0, conversionErrorLog ⟨4, 5, 6, .str "kg", none, none⟩
        ⟨10, 14, 20, .str "kg", none, none⟩ "invalid: NameError") := ⟨rfl, rfl⟩

/-- Claim C4 (amended): a response whose `eval` raises is degraded to
the soft result `"invalid: " ++ message`, which the scorer turns into
`(0, diagnostic)` — no exception propagates.  But a response that
*evaluates to a string* other than (after lowercase/strip) `"same"` or
an `"invalid"`-prefixed string makes `calculate_score` raise
`ValueError` (modelled as `none`), and that exception does propagate to
the caller, so a malformed conversion response can produce a hard
error. -/
theorem eval_failure_degrades_to_incompatible :
    (∀ (m response : String), response ≠ "same" → response ≠ "invalid" →
      convert_units (.err m) response = .s ("invalid: " ++ m)) ∧
    (∀ (m response : String) (cand correct : Estimate),
      response ≠ "same" → response ≠ "invalid" →
      pyStrip (pyLower ("invalid: " ++ m)) ≠ "same" →
      pyStartsWith (pyStrip (pyLower ("invalid: " ++ m))) "invalid" = true →
      calculate_score (.err m) response (.inr cand) correct =
        some (0, conversionErrorLog cand correct ("invalid: " ++ m))) ∧
    (∀ (s response : String) (cand correct : Estimate),
      response ≠ "same" → response ≠ "invalid" →
      pyStrip (pyLower s) ≠ "same" →
      pyStartsWith (pyStrip (pyLower s)) "invalid" = false →
      calculate_score (.str s) response (.inr cand) correct = none) := by
  refine ⟨?_, ?_, ?_⟩
  · intro m response h1 h2
    simp [convert_units, evalOutcomeResult, h1, h2]
  · intro m response cand correct h1 h2 h3 h4
    simp [calculate_score, convert_units, evalOutcomeResult, h1, h2, h3, h4]
  · intro s response cand correct h1 h2 h3 h4
    simp [calculate_score, convert_units, evalOutcomeResult, h1, h2, h3, h4]

/-- Witness for C4: a failing `eval` scores 0 with a diagnostic; an
`eval` producing the plain string `"oops"` makes the scorer raise. -/
theorem eval_failure_degrades_to_incompatible_witness :
    convert_units (.err "SyntaxError") "1 +" = .s "invalid: SyntaxError" ∧
    calculate_score (.err "SyntaxError") "1 +"
        (.inr ⟨4, 5, 6, .str "kg", none, none⟩)
        ⟨10, 14, 20, .str "kg", none, none⟩ =
      some (0, conversionErrorLog ⟨4, 5, 6, .str "kg", none, none⟩
        ⟨10, 14, 20, .str "kg", none, none⟩ "invalid: SyntaxError") ∧
    calculate_score (.str "oops") "\"oops\""
        (.inr ⟨4, 5, 6, .str "kg", none, none⟩)
        ⟨10, 14, 20, .str "kg", none, none⟩ = none := by
  refine ⟨eval_failure_degrades_to_incompatible.1 "SyntaxError" "1 +"
      (by decide) (by decide),
    eval_failure_degrades_to_incompatible.2.1 "SyntaxError" "1 +" _ _
      (by decide) (by decide) (by decide) (by decide),
    eval_failure_degrades_to_incompatible.2.2 "oops" "\"oops\"" _ _
      (by decide) (by decide) (by decide) (by decide)⟩

/-- Claim C4 counterexample: the malformed response `"\"whatever\""`
(a quoted string) evaluates to the Python string `"whatever"`, which is
neither `"same"` nor `"invalid"`-prefixed; `calculate_score` then hits
its `raise ValueError` branch (modelled as `none`) and the exception
propagates — the caller does observe a hard error from a malformed
conversion response. -/
theorem string_eval_result_raises_in_scorer :
    convert_units (.str "whatever") "\"whatever\"" = .s "whatever" ∧
    calculate_score (.str "whatever") "\"whatever\""
        (.inr ⟨4, 5, 6, .str "kg", none, none⟩)
        ⟨10, 14, 20, .str "kg", none, none⟩ = none := ⟨rfl, rfl⟩

/-- Claim C8 (confirmed): with a numeric conversion factor `f`, the
score is `(1, "")` iff `correct.lower < cand.value * f < correct.upper`
with strict inequality on both ends, and an adjusted value exactly equal
to either bound scores `(0, "")`. -/
theorem factor_score_strict_range_check :
    ∀ (f : ℚ) (response : String) (cand correct : Estimate),
      response ≠ "same" → response ≠ "invalid" →
      ((calculate_score (.num f) response (.inr cand) correct = some (1, "") ↔
        correct.lower < cand.value * f ∧ cand.value * f < correct.upper) ∧
       ((cand.value * f = correct.lower ∨ cand.value * f = correct.upper) →
        calculate_score (.num f) response (.inr cand) correct = some (0, ""))) := by
  intro f response cand correct h1 h2
  have hc : convert_units (.num f) response = .f f := by
    simp [convert_units, evalOutcomeResult, h1, h2]
  have hred : calculate_score (.num f) response (.inr cand) correct =
      if correct.lower < cand.value * f ∧ cand.value * f < correct.upper
        then some ((1 : ℚ), "") else some (0, "") := by
    simp only [calculate_score, hc]
  constructor
  · rw [hred]
    constructor
    · intro h
      by_contra hn
      rw [if_neg hn] at h
      simp at h
    · intro h
      rw [if_pos h]
  · intro h
    rw [hred, if_neg]
    rintro ⟨ha, hb⟩
    rcases h with h | h
    · rw [h] at ha
      exact lt_irrefl _ ha
    · rw [h] at hb
      exact lt_irrefl _ hb

/-- Witness for C8, with the spec's own example: value 100 at factor 2
(adjusted 200) passes against bounds (150, 250) and fails against
(150, 200), where it sits exactly on the upper bound. -/
theorem factor_score_strict_range_check_witness :
    calculate_score (.num 2) "2" (.inr ⟨50, 100, 150, .str "kg", none, none⟩)
        ⟨150, 200, 250, .str "lb", none, none⟩ = some (1, "") ∧
    calculate_score (.num 2) "2" (.inr ⟨50, 100, 150, .str "kg", none, none⟩)
        ⟨150, 175, 200, .str "lb", none, none⟩ = some (0, "") := by
  constructor
  · exact (factor_score_strict_range_check 2 "2" _ _ (by decide) (by decide)).1.mpr
      (by norm_num)
  · exact (factor_score_strict_range_check 2 "2" _ _ (by decide) (by decide)).2
      (Or.inr (by norm_num))

/-- Claim C3 (code bug): for a nonempty batch the aggregate equals
`sum(scores) / N`, but for the empty batch `generate_eval_result`
raises `ValueError` at `queries, scores = zip(*results)` — before the
`total_score / len(estimates) if estimates else 0` guard whose presence
shows the intent the spec records — instead of returning the defined
aggregate 0. -/
theorem generate_eval_empty_unpack_error :
    generate_eval_result_score [] =
      .error "not enough values to unpack (expected 2, got 0)" ∧
    generate_eval_result_score [1, 0, 1, 1] = .ok (3 / 4) := by
  constructor
  · rfl
  · norm_num [generate_eval_result_score]

/-- Claim C5 (amended): with the four keys present and the other
numeric fields well-formed, a non-numeric value in one of `lower`,
`value`, `upper` makes `parse_estimate` fail with `badCoerce`: the
`ValueError` naming the field when the value is a string `float`
rejects, but an uncaught `TypeError` naming only the Python type
(`NoneType`, `list`, `dict`) — not the field — for any other
non-numeric value.  The failure is the field-naming `ParseError`
precisely when the value is a string. -/
theorem bad_numeric_field_error_kind :
    ∀ (jl : String → Option (List (String × JVal))) (pf : String → Option ℚ)
      (text : String) (data : List (String × JVal)) (fld : String) (v : JVal),
      pyStartsWith (extractJson text) lbraceS = true →
      pyEndsWith (extractJson text) rbraceS = true →
      jl (extractJson text) = some data →
      fld ∈ (["lower", "value", "upper"] : List String) →
      data.lookup fld = some v →
      (∀ g ∈ (["lower", "value", "upper"] : List String), g ≠ fld →
        ∃ q : ℚ, data.lookup g = some (.num q)) →
      (data.lookup "unit").isSome = true →
      isPyNumeric v = false →
      (∀ s, v = .str s → pf s = none) →
      parse_estimate jl pf text = .error (badCoerce fld v) ∧
      (ParseFailure.isParseError (badCoerce fld v) = true ↔ ∃ s, v = .str s) := by
  intro jl pf text data fld v hstart hend hload hfld hv hothers hunit hbad hstr
  obtain ⟨uu, hn⟩ := Option.isSome_iff_exists.mp hunit
  have hcoerce : coerceField pf fld v = .error (badCoerce fld v) :=
    coerceField_bad hbad hstr
  rw [parse_estimate_eq_parseFields hstart hend hload]
  constructor
  · simp only [List.mem_cons, List.not_mem_nil, or_false] at hfld
    unfold parseFields
    rcases hfld with h | h | h
    · subst h
      obtain ⟨qv, hqv⟩ := hothers "value" (by simp) (by decide)
      obtain ⟨qu, hqu⟩ := hothers "upper" (by simp) (by decide)
      simp only [hv, hqv, hqu, hn, hcoerce]
    · subst h
      obtain ⟨ql, hql⟩ := hothers "lower" (by simp) (by decide)
      obtain ⟨qu, hqu⟩ := hothers "upper" (by simp) (by decide)
      simp only [hql, hv, hqu, hn, coerceField_num, hcoerce]
    · subst h
      obtain ⟨ql, hql⟩ := hothers "lower" (by simp) (by decide)
      obtain ⟨qv, hqv⟩ := hothers "value" (by simp) (by decide)
      simp only [hql, hqv, hv, hn, coerceField_num, hcoerce]
  · cases v with
    | num q => simp [isPyNumeric] at hbad
    | jbool b => simp [isPyNumeric] at hbad
    | str s => simp [badCoerce, ParseFailure.isParseError]
    | null => simp [badCoerce, ParseFailure.isParseError]
    | arr l => simp [badCoerce, ParseFailure.isParseError]
    | obj l => simp [badCoerce, ParseFailure.isParseError]

/-- Witness for C5: the document with `"value": null` makes
`parse_estimate` fail with the uncaught `TypeError` for `NoneType`. -/
theorem bad_numeric_field_error_kind_witness :
    parse_estimate sampleLoads sampleFloat textNullValue =
      .error (.floatTypeError "NoneType") ∧
    ParseFailure.isParseError (.floatTypeError "NoneType") = false := by
  have h := bad_numeric_field_error_kind sampleLoads sampleFloat textNullValue
    docNullValue "value" .null (by decide) (by decide) rfl (by decide)
    rfl
    (by
      intro g hg hne
      simp only [List.mem_cons, List.not_mem_nil, or_false] at hg
      rcases hg with h | h | h
      · subst h
        exact ⟨1, rfl⟩
      · exact absurd h hne
      · subst h
        exact ⟨3, rfl⟩)
    (by decide) (by decide) (fun s hs => by cases hs)
  refine ⟨h.1, ?_⟩
  have hx : ¬ ParseFailure.isParseError (badCoerce "value" JVal.null) = true := by
    intro hc
    obtain ⟨s, hs⟩ := h.2.mp hc
    cases hs
  simpa [badCoerce] using hx

/-- Claim C5 counterexample: with `"value": null` (all four keys
present, other fields numeric), `parse_estimate` does not fail with a
`ParseError` naming the offending field: the `float(None)` call raises
a `TypeError` that the `except ValueError` clause does not catch, and
that `TypeError` (which names no field) propagates instead. -/
theorem null_numeric_field_raises_type_error :
    parse_estimate sampleLoads sampleFloat textNullValue =
      .error (.floatTypeError "NoneType") ∧
    ParseFailure.isParseError (.floatTypeError "NoneType") = false := ⟨rfl, rfl⟩

/-- Claim C6 (confirmed): when the extracted document parses but lacks
one of the four required keys, `parse_estimate` fails with the
`ValueError` whose diagnostic lists exactly the keys of the document
outside the required set (the extra keys), and no required — in
particular no missing — key ever appears in that list. -/
theorem missing_key_diagnostic_lists_extra_keys :
    ∀ (jl : String → Option (List (String × JVal))) (pf : String → Option ℚ)
      (text : String) (data : List (String × JVal)),
      pyStartsWith (extractJson text) lbraceS = true →
      pyEndsWith (extractJson text) rbraceS = true →
      jl (extractJson text) = some data →
      ("lower" ∉ docKeys data ∨ "value" ∉ docKeys data ∨
        "upper" ∉ docKeys data ∨ "unit" ∉ docKeys data) →
      parse_estimate jl pf text =
        .error (.missingFields
          ((docKeys data).filter (fun k => !(requiredKeys.contains k)))) ∧
      ∀ m ∈ requiredKeys,
        m ∉ (docKeys data).filter (fun k => !(requiredKeys.contains k)) := by
  intro jl pf text data hstart hend hload hmiss
  constructor
  · rw [parse_estimate_eq_parseFields hstart hend hload]
    refine parseFields_missing pf data ?_
    rcases hmiss with h | h | h | h
    · exact Or.inl (lookup_none_of_not_mem h)
    · exact Or.inr (Or.inl (lookup_none_of_not_mem h))
    · exact Or.inr (Or.inr (Or.inl (lookup_none_of_not_mem h)))
    · exact Or.inr (Or.inr (Or.inr (lookup_none_of_not_mem h)))
  · intro m hm
    rw [List.mem_filter]
    rintro ⟨-, hc⟩
    simp [List.contains, hm] at hc

/-- Witness for C6: the document with `unit` absent and `confidence`
present produces the diagnostic list `["confidence"]`, which names
`confidence` and not `unit`. -/
theorem missing_key_diagnostic_lists_extra_keys_witness :
    parse_estimate sampleLoads sampleFloat textNoUnit =
      .error (.missingFields ["confidence"]) ∧
    (["confidence"] : List String).contains "unit" = false := by
  have h := missing_key_diagnostic_lists_extra_keys sampleLoads sampleFloat
    textNoUnit docNoUnit (by decide) (by decide) rfl
    (Or.inr (Or.inr (Or.inr (by decide))))
  refine ⟨?_, by decide⟩
  rw [h.1]
  rfl

/-- Claim C7 (confirmed): for a text whose extracted object loads to a
document with exactly the four required keys, the three numeric fields
coercible, `parse_estimate` returns the `Estimate` carrying the coerced
numbers and the `unit` value, with `name` and `reasoning_trace` unset. -/
theorem parse_valid_object_returns_estimate :
    ∀ (jl : String → Option (List (String × JVal))) (pf : String → Option ℚ)
      (text : String) (data : List (String × JVal))
      (lv vv uv uu : JVal) (ql qv qu : ℚ),
      pyStartsWith (extractJson text) lbraceS = true →
      pyEndsWith (extractJson text) rbraceS = true →
      jl (extractJson text) = some data →
      data.lookup "lower" = some lv → coerceField pf "lower" lv = .ok ql →
      data.lookup "value" = some vv → coerceField pf "value" vv = .ok qv →
      data.lookup "upper" = some uv → coerceField pf "upper" uv = .ok qu →
      data.lookup "unit" = some uu →
      (∀ k ∈ docKeys data, k ∈ requiredKeys) →
      parse_estimate jl pf text = .ok ⟨ql, qv, qu, uu, none, none⟩ := by
  intro jl pf text data lv vv uv uu ql qv qu hstart hend hload hl hcl hv hcv
    hu hcu hn hkeys
  have hname : data.lookup "name" = none := by
    refine lookup_none_of_not_mem fun hmem => ?_
    have := hkeys _ hmem
    simp [requiredKeys] at this
  have hrt : data.lookup "reasoning_trace" = none := by
    refine lookup_none_of_not_mem fun hmem => ?_
    have := hkeys _ hmem
    simp [requiredKeys] at this
  have hfil : (docKeys data).filter (fun k => !(estimateParams.contains k)) = [] :=
    filter_keys_nil fun k hk => mem_required_params (hkeys k hk)
  rw [parse_estimate_eq_parseFields hstart hend hload,
    parseFields_ok hl hcl hv hcv hu hcu hn, hfil, hname, hrt]

/-- Witness for C7: parsing the canonical well-formed document yields
the matching `Estimate` with `name` and `reasoning_trace` unset. -/
theorem parse_valid_object_returns_estimate_witness :
    parse_estimate sampleLoads sampleFloat textOk =
      .ok ⟨1, 2, 3, .str "kg", none, none⟩ :=
  parse_valid_object_returns_estimate sampleLoads sampleFloat textOk docOk
    (.num 1) (.num 2) (.num 3) (.str "kg") 1 2 3
    (by decide) (by decide) rfl rfl rfl rfl rfl rfl rfl rfl
    (by decide)

/-- Claim C9 (confirmed): the parser never validates the ordering
`lower <= value <= upper`: under the same well-formedness hypotheses as
a normal parse, but with the coerced numbers out of order, the parse
still succeeds and returns those numbers literally. -/
theorem parse_accepts_unordered_bounds :
    ∀ (jl : String → Option (List (String × JVal))) (pf : String → Option ℚ)
      (text : String) (data : List (String × JVal))
      (lv vv uv uu : JVal) (ql qv qu : ℚ),
      pyStartsWith (extractJson text) lbraceS = true →
      pyEndsWith (extractJson text) rbraceS = true →
      jl (extractJson text) = some data →
      data.lookup "lower" = some lv → coerceField pf "lower" lv = .ok ql →
      data.lookup "value" = some vv → coerceField pf "value" vv = .ok qv →
      data.lookup "upper" = some uv → coerceField pf "upper" uv = .ok qu →
      data.lookup "unit" = some uu →
      (∀ k ∈ docKeys data, k ∈ requiredKeys) →
      (qv < ql ∨ qu < qv) →
      parse_estimate jl pf text = .ok ⟨ql, qv, qu, uu, none, none⟩ := by
  intro jl pf text data lv vv uv uu ql qv qu hstart hend hload hl hcl hv hcv
    hu hcu hn hkeys hdisorder
  have hname : data.lookup "name" = none := by
    refine lookup_none_of_not_mem fun hmem => ?_
    have := hkeys _ hmem
    simp [requiredKeys] at this
  have hrt : data.lookup "reasoning_trace" = none := by
    refine lookup_none_of_not_mem fun hmem => ?_
    have := hkeys _ hmem
    simp [requiredKeys] at this
  have hfil : (docKeys data).filter (fun k => !(estimateParams.contains k)) = [] :=
    filter_keys_nil fun k hk => mem_required_params (hkeys k hk)
  rw [parse_estimate_eq_parseFields hstart hend hload,
    parseFields_ok hl hcl hv hcv hu hcu hn, hfil, hname, hrt]

/-- Witness for C9: the document with `lower` 5, `value` 2, `upper` 3
(violating the ordering invariant) still parses, returning the values
literally. -/
theorem parse_accepts_unordered_bounds_witness :
    parse_estimate sampleLoads sampleFloat textDisorder =
      .ok ⟨5, 2, 3, .str "kg", none, none⟩ :=
  parse_accepts_unordered_bounds sampleLoads sampleFloat textDisorder docDisorder
    (.num 5) (.num 2) (.num 3) (.str "kg") 5 2 3
    (by decide) (by decide) rfl rfl rfl rfl rfl rfl rfl rfl
    (by decide) (Or.inl (by norm_num))

/-- Claim C10 (amended): with the four required keys present and
numeric-coercible, an extra key outside the accepted constructor
parameters makes `parse_estimate` fail — not with any of its own
`ValueError`s (the required-key check passes), but with the
`TypeError: unexpected keyword argument` from `Estimate(**data)`, which
propagates; with a non-coercible numeric field the coercion fails
first, so a field-naming `ParseError` is still possible in the presence
of an extra key. -/
theorem extra_key_raises_unexpected_keyword :
    ∀ (jl : String → Option (List (String × JVal))) (pf : String → Option ℚ)
      (text : String) (data : List (String × JVal))
      (lv vv uv uu : JVal) (ql qv qu : ℚ) (k : String),
      pyStartsWith (extractJson text) lbraceS = true →
      pyEndsWith (extractJson text) rbraceS = true →
      jl (extractJson text) = some data →
      data.lookup "lower" = some lv → coerceField pf "lower" lv = .ok ql →
      data.lookup "value" = some vv → coerceField pf "value" vv = .ok qv →
      data.lookup "upper" = some uv → coerceField pf "upper" uv = .ok qu →
      data.lookup "unit" = some uu →
      k ∈ docKeys data → k ∉ estimateParams →
      parse_estimate jl pf text =
        .error (.unexpectedKeyword
          (((docKeys data).filter (fun k => !(estimateParams.contains k))).headI)) ∧
      ParseFailure.isParseError
        (.unexpectedKeyword
          (((docKeys data).filter (fun k => !(estimateParams.contains k))).headI))
        = false ∧
      ((docKeys data).filter (fun k => !(estimateParams.contains k))).headI
        ∉ estimateParams := by
  intro jl pf text data lv vv uv uu ql qv qu k hstart hend hload hl hcl hv hcv
    hu hcu hn hk hknot
  have hkmem : k ∈ (docKeys data).filter (fun k => !(estimateParams.contains k)) := by
    rw [List.mem_filter]
    exact ⟨hk, by simp [List.contains, hknot]⟩
  obtain ⟨a, l, hfil⟩ :=
    List.exists_cons_of_ne_nil (List.ne_nil_of_mem hkmem)
  have hamem : a ∈ (docKeys data).filter (fun k => !(estimateParams.contains k)) := by
    rw [hfil]
    exact List.mem_cons_self a l
  have hanot : a ∉ estimateParams := by
    rw [List.mem_filter] at hamem
    have := hamem.2
    simp [List.contains] at this
    exact this
  refine ⟨?_, rfl, by rw [hfil]; exact hanot⟩
  rw [parse_estimate_eq_parseFields hstart hend hload,
    parseFields_ok hl hcl hv hcv hu hcu hn, hfil]
  rfl

/-- Witness for C10: the document with all four keys plus `confidence`
makes parsing fail with the unexpected-keyword `TypeError` naming
`confidence`. -/
theorem extra_key_raises_unexpected_keyword_witness :
    parse_estimate sampleLoads sampleFloat textExtraKey =
      .error (.unexpectedKeyword "confidence") ∧
    estimateParams.contains "confidence" = false := by
  have h := extra_key_raises_unexpected_keyword sampleLoads sampleFloat
    textExtraKey docExtraKey (.num 1) (.num 2) (.num 3) (.str "kg") 1 2 3
    "confidence" (by decide) (by decide) rfl rfl rfl rfl rfl rfl rfl
    rfl (by decide) (by decide)
  refine ⟨?_, by decide⟩
  rw [h.1]
  rfl

/-- Claim C10 counterexample: the document with the four required keys,
`"value": "abc"` and the extra key `confidence` is inside the claim as
stated (four required keys plus an extra key), yet `parse_estimate`
fails with the field-naming `ValueError` — a `ParseError` — because
the numeric coercion of `value` fails before the record construction is
reached, contradicting that parse "does not fail with a ParseError". -/
theorem extra_key_with_bad_value_gives_parse_error :
    parse_estimate sampleLoads sampleFloat textExtraKeyBadValue =
      .error (.badNumber "value") ∧
    ParseFailure.isParseError (.badNumber "value") = true := ⟨rfl, rfl⟩

end Fermi
